import Mathlib

/-!
Verification of the superblock / mount-consistency subsystem of
`fs/ext4/super.c` (ext4 superblock manager) against its natural-language
specification.  The C code is shallowly embedded: machine integers become
`Nat` with explicit masking where overflow matters, raw structs become
byte lists or Lean structures, and fallible / effectful code becomes
explicit state passing.
-/

set_option maxRecDepth 10000

namespace Ext4

/-! ## On-disk and in-memory constants

Feature-flag bit values and state bits.  These are fixed on-disk format
constants from the ext4 header (the header file itself is not part of the
excerpt; the values are the standard on-disk ones and no claim below
depends on the particular numbers). -/

def EXT4_FEATURE_RO_COMPAT_GDT_CSUM : Nat := 0x0010

def EXT4_FEATURE_RO_COMPAT_HUGE_FILE : Nat := 0x0008

def EXT4_FEATURE_RO_COMPAT_BIGALLOC : Nat := 0x0200

def EXT4_FEATURE_INCOMPAT_EXTENTS : Nat := 0x0040

def EXT4_FEATURE_INCOMPAT_64BIT : Nat := 0x0080

def EXT4_FEATURE_INCOMPAT_FLEX_BG : Nat := 0x0200

/-- Mount-state bit: filesystem cleanly unmounted. -/
def EXT4_VALID_FS : Nat := 0x0001

/-- Mount-state bit: filesystem has recorded errors. -/
def EXT4_ERROR_FS : Nat := 0x0002

/-- In-memory mount flag: the filesystem has been aborted. -/
def EXT4_MF_FS_ABORTED : Nat := 0x0002

/-- VFS read-only mount flag. -/
def MS_RDONLY : Nat := 1

/-- Mount option bits consulted by the error-policy and remount code. -/
def EXT4_MOUNT_ERRORS_CONT : Nat := 0x00010

def EXT4_MOUNT_ERRORS_RO : Nat := 0x00020

def EXT4_MOUNT_ERRORS_PANIC : Nat := 0x00040

def EXT4_MOUNT_JOURNAL_DATA : Nat := 0x00400

def EXT4_MOUNT_DATA_FLAGS : Nat := 0x00C00

def EXT4_MOUNT_DIOREAD_NOLOCK : Nat := 0x400000

def EXT4_MOUNT2_EXPLICIT_DELALLOC : Nat := 0x00002

/-- Group-descriptor flag: the group's inode table is known zeroed. -/
def EXT4_BG_INODE_ZEROED : Nat := 0x0004

/-- Bitwise complement within a 32-bit word, as the C `~mask` on a `u32`. -/
def compl32 (x : Nat) : Nat := 0xFFFFFFFF ^^^ x

/-! ## Feature bitsets and `ext4_feature_set_ok`

The three on-disk feature bitsets of the superblock
(`s_feature_compat` / `s_feature_incompat` / `s_feature_ro_compat`). -/

structure FeatureSet where
  compat : Nat
  incompat : Nat
  ro_compat : Nat
  deriving Repr, DecidableEq

/-- Shallow embedding of `ext4_feature_set_ok` (super.c lines 2538-2580).
`incompat_supp` and `ro_supp` are the kernel's supported-feature masks
(`EXT4_FEATURE_INCOMPAT_SUPP` / `EXT4_FEATURE_RO_COMPAT_SUPP`, defined in
the ext4 header); `blkcnt64` is the compile-time fact
`sizeof(blkcnt_t) >= sizeof(u64)`.  Returns `true` iff the filesystem may
be mounted as requested (`readonly = false` means a writable mount). -/
def ext4_feature_set_ok (incompat_supp ro_supp : Nat) (blkcnt64 : Bool)
    (fs : FeatureSet) (readonly : Bool) : Bool :=
  if fs.incompat &&& compl32 incompat_supp ≠ 0 then
    false
  else if readonly then
    true
  else if fs.ro_compat &&& compl32 ro_supp ≠ 0 then
    false
  else if fs.ro_compat &&& EXT4_FEATURE_RO_COMPAT_HUGE_FILE ≠ 0 && !blkcnt64 then
    false
  else if fs.ro_compat &&& EXT4_FEATURE_RO_COMPAT_BIGALLOC ≠ 0 &&
          fs.incompat &&& EXT4_FEATURE_INCOMPAT_EXTENTS = 0 then
    false
  else
    true

/-! ## CRC-16

`ext4_group_desc_csum` calls the kernel's `crc16` (from `lib/crc16.c`,
not part of the excerpt). -/

/-- Modelled from the spec: one step of the 16-bit checksum primitive named
by the spec ("a 16-bit checksum"); `lib/crc16.c` is not in the excerpt.
This is the CRC-16/ARC step: shift right one bit, folding in the reflected
polynomial `0xA001` when the dropped bit was set. -/
def crc16_shift (c : Nat) : Nat :=
  if c % 2 = 1 then (c / 2) ^^^ 0xA001 else c / 2

/-- Iterate `crc16_shift`. -/
def crc16_steps : Nat → Nat → Nat
  | 0, c => c
  | n + 1, c => crc16_steps n (crc16_shift c)

/-- Modelled from the spec: absorb one byte into the running checksum —
xor it into the low bits, then perform eight shift steps. -/
def crc16_byte (c b : Nat) : Nat := crc16_steps 8 (c ^^^ b)

/-- Modelled from the spec: `crc16(crc, buf, len)` over a byte list. -/
def crc16 (c : Nat) (l : List Nat) : Nat := l.foldl crc16_byte c

/-! ## Group descriptors as raw byte images

A group descriptor is modelled as its on-disk little-endian byte image,
exactly the `(__u8 *)gdp` view the checksum code takes. -/

/-- Modelled from the spec: little-endian 16-bit field of a raw byte image
(the struct layout macros live in the ext4 header, not in the excerpt). -/
def le16_at (g : List Nat) (off : Nat) : Nat :=
  g.getD off 0 + 256 * g.getD (off + 1) 0

/-- Modelled from the spec: little-endian 32-bit field of a raw byte image. -/
def le32_at (g : List Nat) (off : Nat) : Nat :=
  le16_at g off + 2 ^ 16 * le16_at g (off + 2)

/-- The four little-endian bytes of a 32-bit value, as
`(__u8 *)&le_group` exposes `cpu_to_le32(block_group)`. -/
def le32_bytes (n : Nat) : List Nat :=
  [n % 256, n / 2 ^ 8 % 256, n / 2 ^ 16 % 256, n / 2 ^ 24 % 256]

/-- Modelled from the spec: `offsetof(struct ext4_group_desc, bg_checksum)`
— the checksum field sits after the fixed 30-byte field block of the
descriptor (layout from the ext4 header, not in the excerpt). -/
def bg_checksum_offset : Nat := 30

/-- The stored `bg_checksum` field of a descriptor byte image. -/
def bg_checksum (g : List Nat) : Nat := le16_at g bg_checksum_offset

/-- The `bg_flags` field of a descriptor byte image (offset 18). -/
def bg_flags_of (g : List Nat) : Nat := le16_at g 18

/-- The `bg_block_bitmap` location of a descriptor (low half at offset 0,
64-bit high half at offset 32 when the descriptor is large). -/
def ext4_block_bitmap (desc_size : Nat) (g : List Nat) : Nat :=
  le32_at g 0 + if 64 ≤ desc_size then 2 ^ 32 * le32_at g 32 else 0

/-- The `bg_inode_bitmap` location of a descriptor (offset 4 / 36). -/
def ext4_inode_bitmap (desc_size : Nat) (g : List Nat) : Nat :=
  le32_at g 4 + if 64 ≤ desc_size then 2 ^ 32 * le32_at g 36 else 0

/-- The `bg_inode_table` location of a descriptor (offset 8 / 40). -/
def ext4_inode_table (desc_size : Nat) (g : List Nat) : Nat :=
  le32_at g 8 + if 64 ≤ desc_size then 2 ^ 32 * le32_at g 40 else 0

/-- The superblock fields consulted by the descriptor-checksum and
descriptor-verification code (`struct ext4_sb_info` / on-disk
`struct ext4_super_block`). -/
structure SbInfo where
  uuid : List Nat
  desc_size : Nat
  features : FeatureSet
  first_data_block : Nat
  blocks_count : Nat
  blocks_per_group : Nat
  itb_per_group : Nat
  groups_count : Nat
  deriving Repr, DecidableEq

/-- Shallow embedding of `ext4_group_desc_csum` (super.c lines 1928-1952):
when the `GDT_CSUM` read-only-compatible feature is enabled, a CRC-16 over
the 16-byte volume UUID, the little-endian group index, the descriptor
bytes before the checksum field, and — when the 64-bit feature is set and
the stored descriptor size exceeds the fixed part — the descriptor bytes
after the checksum field up to the descriptor size. -/
def ext4_group_desc_csum (sbi : SbInfo) (block_group : Nat)
    (gdp : List Nat) : Nat :=
  if sbi.features.ro_compat &&& EXT4_FEATURE_RO_COMPAT_GDT_CSUM ≠ 0 then
    let c1 := crc16 0xFFFF sbi.uuid
    let c2 := crc16 c1 (le32_bytes block_group)
    let c3 := crc16 c2 (gdp.take bg_checksum_offset)
    if sbi.features.incompat &&& EXT4_FEATURE_INCOMPAT_64BIT ≠ 0 ∧
        bg_checksum_offset + 2 < sbi.desc_size then
      crc16 c3 ((gdp.drop (bg_checksum_offset + 2)).take
        (sbi.desc_size - (bg_checksum_offset + 2)))
    else
      c3
  else 0

/-- Shallow embedding of `ext4_group_desc_csum_verify`
(super.c lines 1954-1963). -/
def ext4_group_desc_csum_verify (sbi : SbInfo) (block_group : Nat)
    (gdp : List Nat) : Bool :=
  if sbi.features.ro_compat &&& EXT4_FEATURE_RO_COMPAT_GDT_CSUM ≠ 0 ∧
      bg_checksum gdp ≠ ext4_group_desc_csum sbi block_group gdp then
    false
  else
    true

/-- The descriptor bytes that feed the checksum: the fixed part before the
checksum field, plus the optional large-descriptor tail after it. -/
def csum_covered (sbi : SbInfo) (gdp : List Nat) : List Nat :=
  gdp.take bg_checksum_offset ++
    (if sbi.features.incompat &&& EXT4_FEATURE_INCOMPAT_64BIT ≠ 0 ∧
        bg_checksum_offset + 2 < sbi.desc_size then
      (gdp.drop (bg_checksum_offset + 2)).take
        (sbi.desc_size - (bg_checksum_offset + 2))
    else [])

/-! ## `ext4_check_descriptors` (super.c lines 1966-2040) -/

/-- The three location range checks performed on one descriptor by the
`ext4_check_descriptors` loop body, including the per-iteration
`last_block` computation (last group or flex-bg: up to the end of the
volume; otherwise the end of the group). -/
def desc_in_range (sbi : SbInfo) (flexbg : Bool) (i first_block : Nat)
    (gdp : List Nat) : Bool :=
  let last_block := if i = sbi.groups_count - 1 ∨ flexbg = true then
      sbi.blocks_count - 1
    else first_block + (sbi.blocks_per_group - 1)
  if ext4_block_bitmap sbi.desc_size gdp < first_block ∨
      last_block < ext4_block_bitmap sbi.desc_size gdp then false
  else if ext4_inode_bitmap sbi.desc_size gdp < first_block ∨
      last_block < ext4_inode_bitmap sbi.desc_size gdp then false
  else if ext4_inode_table sbi.desc_size gdp < first_block ∨
      last_block < ext4_inode_table sbi.desc_size gdp +
        sbi.itb_per_group - 1 then false
  else true

/-- The loop of `ext4_check_descriptors`, from group `i` with running
`first_block` and first-not-zeroed accumulator `grp`.  Any location out of
range fails; a checksum mismatch fails only on a writable mount
(`rdonly = false`).  Returns the verification verdict together with the
final `first_not_zeroed` accumulator (which the C code only stores on the
success path). -/
def check_descriptors_loop (sbi : SbInfo) (rdonly flexbg : Bool) :
    List (List Nat) → Nat → Nat → Nat → Bool × Nat
  | [], _, _, grp => (true, grp)
  | gdp :: rest, i, first_block, grp =>
    let grp2 := if grp = sbi.groups_count ∧
        bg_flags_of gdp &&& EXT4_BG_INODE_ZEROED = 0 then i else grp
    if desc_in_range sbi flexbg i first_block gdp = false then
      (false, grp2)
    else if ext4_group_desc_csum_verify sbi i gdp = false ∧ rdonly = false then
      (false, grp2)
    else
      check_descriptors_loop sbi rdonly flexbg rest (i + 1)
        (if flexbg then first_block else first_block + sbi.blocks_per_group)
        grp2

/-- Shallow embedding of `ext4_check_descriptors`: verify the whole
descriptor table of a mounted volume.  The function's final recomputation
of the superblock free-block/free-inode fields (super.c lines 2036-2038)
reads collaborator runtime counters outside this model and is modelled
with `ext4_commit_super`'s counter recomputation instead. -/
def ext4_check_descriptors (sbi : SbInfo) (rdonly : Bool)
    (descs : List (List Nat)) : Bool × Nat :=
  check_descriptors_loop sbi rdonly
    (sbi.features.incompat &&& EXT4_FEATURE_INCOMPAT_FLEX_BG != 0)
    descs 0 sbi.first_data_block sbi.groups_count

/-- All descriptors pass the per-group location range checks, mirroring
the loop's `first_block` evolution. -/
def descs_ranges_ok (sbi : SbInfo) (flexbg : Bool) :
    List (List Nat) → Nat → Nat → Bool
  | [], _, _ => true
  | gdp :: rest, i, first_block =>
    desc_in_range sbi flexbg i first_block gdp &&
      descs_ranges_ok sbi flexbg rest (i + 1)
        (if flexbg then first_block else first_block + sbi.blocks_per_group)

/-- All descriptors pass the checksum verification, indexed from group
`i`. -/
def descs_csums_ok (sbi : SbInfo) : List (List Nat) → Nat → Bool
  | [], _ => true
  | gdp :: rest, i =>
    ext4_group_desc_csum_verify sbi i gdp && descs_csums_ok sbi rest (i + 1)

/-! ## `ext4_orphan_cleanup` (super.c lines 2059-2161) -/

/-- The fields of an orphan-chain inode consulted by orphan cleanup. -/
structure OrphanInode where
  /-- The inode's link count (`inode->i_nlink`): nonzero means a pending
  truncation, zero means a pending deletion. -/
  i_nlink : Nat
  /-- Modelled from the spec: the inode's own stored next-orphan field
  ("advance to the next chain entry using the inode's own stored next
  field").  The inode-side code (`ext4_orphan_get` and the `iput`
  finalization that advances `es->s_last_orphan`) is outside the
  excerpt. -/
  i_next : Nat

/-- Result of the orphan-cleanup loop: final head pointer and the three
counters (truncations, deletions, successfully resolved entries). -/
structure OrphanCounts where
  head : Nat
  truncates : Nat
  deletes : Nat
  resolved : Nat
  deriving Repr, DecidableEq

/-- The `while (es->s_last_orphan)` loop of `ext4_orphan_cleanup`
(super.c lines 2113-2143): resolve the head entry; an unresolvable entry
clears the head pointer and stops (the chain was already repaired
externally); otherwise count a truncation (nonzero link count) or a
deletion and advance to the entry's stored next pointer.  `fuel` bounds
the iterations of the shallow embedding; the convergence theorem exhibits
a fuel on which the loop runs to completion. -/
def orphan_loop (resolve : Nat → Option OrphanInode) :
    Nat → Nat → OrphanCounts
  | fuel, head =>
    if head = 0 then ⟨0, 0, 0, 0⟩
    else
      match fuel with
      | 0 => ⟨head, 0, 0, 0⟩
      | fuel + 1 =>
        match resolve head with
        | none => ⟨0, 0, 0, 0⟩
        | some ino =>
          let r := orphan_loop resolve fuel ino.i_next
          if ino.i_nlink ≠ 0 then ⟨r.head, r.truncates + 1, r.deletes, r.resolved + 1⟩
          else ⟨r.head, r.truncates, r.deletes + 1, r.resolved + 1⟩

/-- Result of one `ext4_orphan_cleanup` run. -/
structure OrphanOutcome where
  last_orphan : Nat
  nr_truncates : Nat
  nr_orphans : Nat
  nr_resolved : Nat
  s_flags : Nat
  deriving Repr, DecidableEq

/-- Shallow embedding of `ext4_orphan_cleanup` (super.c lines 2059-2161):
no orphans, a read-only backing device, or a feature set unfit for a
writable mount skip cleanup with the head pointer untouched; the
error flag clears the head pointer and skips recovery; otherwise the
chain is drained by `orphan_loop` (with `MS_RDONLY` temporarily cleared
and the original `s_flags` restored afterwards, which the outcome
reflects). -/
def ext4_orphan_cleanup (incompat_supp ro_supp : Nat) (blkcnt64 : Bool)
    (features : FeatureSet) (bdev_ro : Bool) (mount_state : Nat)
    (resolve : Nat → Option OrphanInode) (s_flags : Nat)
    (last_orphan : Nat) (fuel : Nat) : OrphanOutcome :=
  if last_orphan = 0 then
    ⟨last_orphan, 0, 0, 0, s_flags⟩
  else if bdev_ro = true then
    ⟨last_orphan, 0, 0, 0, s_flags⟩
  else if ¬ ext4_feature_set_ok incompat_supp ro_supp blkcnt64 features false then
    ⟨last_orphan, 0, 0, 0, s_flags⟩
  else if mount_state &&& EXT4_ERROR_FS ≠ 0 then
    ⟨0, 0, 0, 0, s_flags⟩
  else
    let r := orphan_loop resolve fuel last_orphan
    ⟨r.head, r.truncates, r.deletes, r.resolved, s_flags⟩

/-- A well-formed orphan chain: the list of entries reachable from the
head, each nonzero and resolvable, linked by the stored next fields and
ending at 0. -/
def chain_ok (resolve : Nat → Option OrphanInode) : Nat → List Nat → Bool
  | head, [] => head == 0
  | head, i :: rest =>
    head == i && i != 0 &&
      (match resolve i with
       | none => false
       | some ino => chain_ok resolve ino.i_next rest)

/-! ## Error reporting and the error policy
(`__save_error_info` / `save_error_info`, super.c lines 387-419;
`ext4_handle_error` / `__ext4_error`, lines 472-512) -/

/-- The in-memory and on-disk state touched by the error-reporting path:
VFS flags, mount options and flags, the superblock's diagnostic fields,
the daily error-report timer, the journal, and a count of issued
synchronous superblock commits. -/
structure ErrState where
  s_flags : Nat
  mount_opt : Nat
  mount_state : Nat
  mount_flags : Nat
  es_state : Nat
  journal_present : Bool
  journal_rec_err : Bool
  journal_aborted : Bool
  last_error_time : Nat
  last_error_func : String
  last_error_line : Nat
  last_error_ino : Nat
  last_error_block : Nat
  first_error_time : Nat
  first_error_func : String
  first_error_line : Nat
  first_error_ino : Nat
  first_error_block : Nat
  error_count : Nat
  err_report_timer_armed : Bool
  sync_commits : Nat
  deriving Repr, DecidableEq

/-- Shallow embedding of `__save_error_info` (super.c lines 387-412):
set the error bits, overwrite the last-error fields, copy them into the
first-error fields only when the first-error time is still unset, arm the
daily report timer when this is the first counted error, and bump the
32-bit on-disk error counter. -/
def __save_error_info (s : ErrState) (func : String) (line now : Nat) :
    ErrState :=
  let s1 := { s with
    mount_state := s.mount_state ||| EXT4_ERROR_FS,
    es_state := s.es_state ||| EXT4_ERROR_FS,
    last_error_time := now,
    last_error_func := func,
    last_error_line := line }
  let s2 := if s1.first_error_time = 0 then
      { s1 with
        first_error_time := s1.last_error_time,
        first_error_func := func,
        first_error_line := line,
        first_error_ino := s1.last_error_ino,
        first_error_block := s1.last_error_block }
    else s1
  let s3 := if s2.error_count = 0 then
      { s2 with err_report_timer_armed := true }
    else s2
  { s3 with error_count := (s3.error_count + 1) % 2 ^ 32 }

/-- Shallow embedding of `save_error_info` (super.c lines 414-419):
record the fault, then `ext4_commit_super(sb, 1)` — a synchronous
superblock commit, counted in `sync_commits`. -/
def save_error_info (s : ErrState) (func : String) (line now : Nat) :
    ErrState :=
  let s1 := __save_error_info s func line now
  { s1 with sync_commits := s1.sync_commits + 1 }

/-- Shallow embedding of `ext4_handle_error` (super.c lines 472-495):
nothing happens on a read-only filesystem; otherwise any policy other
than `errors=continue` aborts the journal and sets the abort flag,
`errors=remount-ro` flips the filesystem read-only, and `errors=panic`
panics unless a journal is present without a recorded journal error.
The boolean result reports whether the kernel panicked. -/
def ext4_handle_error (s : ErrState) : ErrState × Bool :=
  if s.s_flags &&& MS_RDONLY ≠ 0 then (s, false)
  else
    let s1 := if s.mount_opt &&& EXT4_MOUNT_ERRORS_CONT = 0 then
        { s with
          mount_flags := s.mount_flags ||| EXT4_MF_FS_ABORTED,
          journal_aborted := s.journal_present || s.journal_aborted }
      else s
    let s2 := if s1.mount_opt &&& EXT4_MOUNT_ERRORS_RO ≠ 0 then
        { s1 with s_flags := s1.s_flags ||| MS_RDONLY }
      else s1
    if s2.mount_opt &&& EXT4_MOUNT_ERRORS_PANIC ≠ 0 then
      if s2.journal_present = true ∧ s2.journal_rec_err = false then
        (s2, false)
      else (s2, true)
    else (s2, false)

/-- Shallow embedding of `__ext4_error` (super.c lines 497-512): record
the fault durably, then apply the configured error policy. -/
def __ext4_error (s : ErrState) (func : String) (line now : Nat) :
    ErrState × Bool :=
  ext4_handle_error (save_error_info s func line now)

/-! ## `ext4_commit_super` (super.c lines 4129-4194) and
`block_device_ejected` (lines 429-435) -/

/-- The state consulted and mutated by `ext4_commit_super`: the on-disk
superblock fields it writes, the superblock buffer head's flags, and the
runtime counters and collaborator signals it reads (`percpu` counter sums,
partition statistics, the backing-device-info presence signal, the
outcome of the synchronous write). -/
structure CommitState where
  sbh_present : Bool
  bdi_dev_present : Bool
  rdonly : Bool
  bd_part : Bool
  buffer_write_io_error : Bool
  buffer_uptodate : Bool
  buffer_dirty : Bool
  s_dirt : Nat
  es_wtime : Nat
  es_kbytes_written : Nat
  es_free_blocks_count : Nat
  es_free_inodes_count : Nat
  kbytes_written : Nat
  sectors_written : Nat
  sectors_written_start : Nat
  freeclusters_sum : Nat
  freeinodes_sum : Nat
  cluster_bits : Nat
  now : Nat
  sync_write_err : Nat
  write_io_error_after : Bool
  deriving Repr, DecidableEq

/-- Shallow embedding of `block_device_ejected` (super.c lines 429-435):
the backing device has been yanked when the backing-dev-info's device
pointer has been torn down. -/
def block_device_ejected (s : CommitState) : Bool := !s.bdi_dev_present

/-- Shallow embedding of `ext4_commit_super` (super.c lines 4129-4194):
a missing buffer head or an ejected device is a silent no-op; a previous
write error on the buffer is treated as transient (cleared and retried);
the write timestamp is refreshed only on a non-read-only mount; the
kbytes-written and free-block/free-inode fields are recomputed from the
runtime counters; then the buffer is marked dirty and, for a synchronous
call, written out with the write error reported. -/
def ext4_commit_super (s : CommitState) (sync : Bool) : CommitState × Nat :=
  if s.sbh_present = false ∨ block_device_ejected s = true then (s, 0)
  else
    let s1 := if s.buffer_write_io_error = true then
        { s with buffer_write_io_error := false, buffer_uptodate := true }
      else s
    let s2 := if s1.rdonly = false then { s1 with es_wtime := s1.now } else s1
    let s3 := { s2 with es_kbytes_written :=
      if s2.bd_part = true then
        s2.kbytes_written + (s2.sectors_written - s2.sectors_written_start) / 2
      else s2.kbytes_written }
    let s4 := { s3 with
      es_free_blocks_count := s3.freeclusters_sum * 2 ^ s3.cluster_bits,
      es_free_inodes_count := s3.freeinodes_sum }
    let s5 := { s4 with s_dirt := 0, buffer_dirty := true }
    if sync = true then
      if s5.sync_write_err ≠ 0 then (s5, s5.sync_write_err)
      else if s5.write_io_error_after = true then
        ({ s5 with buffer_write_io_error := false, buffer_uptodate := true }, 1)
      else (s5, 0)
    else (s5, 0)

/-! ## `ext4_setup_super` (super.c lines 1825-1880) and
`ext4_update_dynamic_rev` (lines 752-773) -/

/-- The highest supported revision (`EXT4_MAX_SUPP_REV`, equal to
`EXT4_DYNAMIC_REV`; value from the ext4 header, not in the excerpt). -/
def EXT4_MAX_SUPP_REV : Nat := 1

/-- The original pre-dynamic revision (`EXT4_GOOD_OLD_REV`). -/
def EXT4_GOOD_OLD_REV : Nat := 0

/-- The dynamic-inode-size revision (`EXT4_DYNAMIC_REV`). -/
def EXT4_DYNAMIC_REV : Nat := 1

/-- Default maximal mount count (`EXT4_DFL_MAX_MNT_COUNT = -1`), as the
16-bit little-endian pattern it is stored as. -/
def EXT4_DFL_MAX_MNT_COUNT : Nat := 0xFFFF

/-- The good-old first non-reserved inode (`EXT4_GOOD_OLD_FIRST_INO`). -/
def EXT4_GOOD_OLD_FIRST_INO : Nat := 11

/-- The good-old on-disk inode size (`EXT4_GOOD_OLD_INODE_SIZE`). -/
def EXT4_GOOD_OLD_INODE_SIZE : Nat := 128

/-- Incompatible-feature bit: journal recovery needed
(`EXT4_FEATURE_INCOMPAT_RECOVER`). -/
def EXT4_FEATURE_INCOMPAT_RECOVER : Nat := 0x0004

/-- The C idiom `x & ~m` (clear the bits of `m` in `x`). -/
def bitclear (x m : Nat) : Nat := x ^^^ (x &&& m)

/-- The superblock fields consulted and mutated by `ext4_setup_super`. -/
structure SetupSb where
  rev_level : Nat
  mount_state : Nat
  es_state : Nat
  max_mnt_count : Nat
  mnt_count : Nat
  mtime : Nat
  first_ino : Nat
  inode_size : Nat
  features : FeatureSet
  journal_present : Bool
  sync_commits : Nat
  deriving Repr, DecidableEq

/-- Shallow embedding of `ext4_update_dynamic_rev` (super.c lines
752-773): no-op above `EXT4_GOOD_OLD_REV`; otherwise raise the revision
to `EXT4_DYNAMIC_REV` with the good-old first inode and inode size. -/
def ext4_update_dynamic_rev (s : SetupSb) : SetupSb :=
  if EXT4_GOOD_OLD_REV < s.rev_level then s
  else { s with
    first_ino := EXT4_GOOD_OLD_FIRST_INO,
    inode_size := EXT4_GOOD_OLD_INODE_SIZE,
    rev_level := EXT4_DYNAMIC_REV }

/-- Shallow embedding of `ext4_setup_super` (super.c lines 1825-1880).
A revision level above the maximum supported sets the result to
`MS_RDONLY` ("forcing read-only mode") — it does not fail.  A read-only
mount then returns at once; a writable mount logs advisory warnings,
clears the valid bit when there is no journal, defaults the maximal
mount count, bumps the mount count, stamps the mount time, raises the
dynamic revision, sets the recovery-needed feature when a journal is
present, and commits the superblock synchronously. -/
def ext4_setup_super (s : SetupSb) (read_only : Bool) (now : Nat) :
    SetupSb × Nat :=
  let res := if EXT4_MAX_SUPP_REV < s.rev_level then MS_RDONLY else 0
  if read_only = true then (s, res)
  else
    let s1 := if s.journal_present = false then
        { s with es_state := bitclear s.es_state EXT4_VALID_FS }
      else s
    let s2 := if s1.max_mnt_count = 0 then
        { s1 with max_mnt_count := EXT4_DFL_MAX_MNT_COUNT }
      else s1
    let s3 := { s2 with
      mnt_count := ((s2.mnt_count + 1) % 2 ^ 16),
      mtime := now }
    let s4 := ext4_update_dynamic_rev s3
    let s5 := if s4.journal_present = true then
        { s4 with features := { s4.features with
          incompat := s4.features.incompat ||| EXT4_FEATURE_INCOMPAT_RECOVER } }
      else s4
    ({ s5 with sync_commits := s5.sync_commits + 1 }, res)

/-- The use of `ext4_setup_super`'s result at mount time (super.c lines
3737-3738): a nonzero result forces the read-only VFS flag on the mounted
volume; there is no failure path, the mount continues either way. -/
def mount_apply_setup_super (s_flags res : Nat) : Nat :=
  if res ≠ 0 then s_flags ||| MS_RDONLY else s_flags

/-! ## `ext4_remount` (super.c lines 4378-4587) -/

/-- Mount-option bit for POSIX ACLs (`EXT4_MOUNT_POSIX_ACL`). -/
def EXT4_MOUNT_POSIX_ACL : Nat := 0x08000

/-- VFS flag mirroring the ACL option (`MS_POSIXACL`). -/
def MS_POSIXACL : Nat := 0x10000

/-- Incompatible-feature bit for multi-mount protection
(`EXT4_FEATURE_INCOMPAT_MMP`). -/
def EXT4_FEATURE_INCOMPAT_MMP : Nat := 0x0100

/-- The `-EINVAL` error code (as a positive magnitude). -/
def EINVAL : Nat := 22

/-- The `-EROFS` error code (as a positive magnitude). -/
def EROFS : Nat := 30

/-- The option fields snapshotted into `struct ext4_mount_options`
(super.c lines 4365-4376) and put back by `restore_opts`. -/
structure MountOptions where
  s_mount_opt : Nat
  s_mount_opt2 : Nat
  s_resuid : Nat
  s_resgid : Nat
  s_commit_interval : Nat
  s_min_batch_time : Nat
  s_max_batch_time : Nat
  deriving Repr, DecidableEq

/-- The volume state consulted and mutated by `ext4_remount`. -/
structure RemountVol where
  s_flags : Nat
  opts : MountOptions
  mount_flags : Nat
  mount_state : Nat
  es_state : Nat
  es_last_orphan : Nat
  rev_level : Nat
  journal_present : Bool
  journal_rec_err : Bool
  journal_aborted : Bool
  error_saves : Nat
  sync_commits : Nat
  sbi : SbInfo
  descs : List (List Nat)
  deriving Repr, DecidableEq

/-- Outcome of a remount request: success, a failed request carrying the
(option-restored) volume state, or a kernel panic. -/
inductive RemountResult where
  | ok (v : RemountVol)
  | err (code : Nat) (v : RemountVol)
  | panicked
  deriving Repr, DecidableEq

/-- Shallow embedding of `__ext4_abort` (super.c lines 647-674) as issued
by `ext4_remount` on a volume whose abort flag is already set: the fault
is saved; a still-writable volume additionally flips read-only, sets the
abort flag, aborts the journal, and saves the fault again; under the
panic policy the kernel panics unless a journal is present with no
recorded journal error.  The boolean reports a panic. -/
def ext4_abort_step (v : RemountVol) : RemountVol × Bool :=
  let v1 := { v with error_saves := v.error_saves + 1 }
  let v2 := if v1.s_flags &&& MS_RDONLY = 0 then
      { v1 with
        s_flags := v1.s_flags ||| MS_RDONLY,
        mount_flags := v1.mount_flags ||| EXT4_MF_FS_ABORTED,
        journal_aborted := v1.journal_present || v1.journal_aborted,
        error_saves := v1.error_saves + 1 }
    else v1
  if v2.opts.s_mount_opt &&& EXT4_MOUNT_ERRORS_PANIC ≠ 0 then
    if v2.journal_present = true ∧ v2.journal_rec_err = false then (v2, false)
    else (v2, true)
  else (v2, false)

/-- The success tail of `ext4_remount` (super.c lines 4535-4564): the
lazy-init request is re-registered (collaborator), and the superblock is
committed when there is no journal and the volume was writable before
the remount. -/
def remount_finish (old_flags : Nat) (v : RemountVol) : RemountResult :=
  RemountResult.ok (if v.journal_present = false ∧
      old_flags &&& MS_RDONLY = 0 then
    { v with sync_commits := v.sync_commits + 1 } else v)

/-- The portion of `ext4_remount` after the abort check (super.c lines
4437-4564), with the original flags and option snapshot for
`restore_opts`.  `ext4_mark_recovery_complete` and
`ext4_clear_journal_err` act on the journal collaborator and are outside
the modelled state; `ext4_setup_super`'s mount-time bookkeeping (modelled
separately on `SetupSb`) enters here only through its result, which
clears the read-only flag when zero. -/
def ext4_remount_cont (incompat_supp ro_supp : Nat) (blkcnt64 : Bool)
    (old_flags : Nat) (old_opts : MountOptions) (v2 : RemountVol)
    (req_rdonly : Bool) (dquot_err : Nat) (mmp_fail : Bool) :
    RemountResult :=
  let v3 := { v2 with
    s_flags := bitclear v2.s_flags MS_POSIXACL |||
      (if v2.opts.s_mount_opt &&& EXT4_MOUNT_POSIX_ACL ≠ 0 then MS_POSIXACL
       else 0) }
  let cur_ro : Bool := v3.s_flags &&& MS_RDONLY != 0
  if req_rdonly ≠ cur_ro then
    if v3.mount_flags &&& EXT4_MF_FS_ABORTED ≠ 0 then
      RemountResult.err EROFS { v3 with s_flags := old_flags, opts := old_opts }
    else if req_rdonly = true then
      if dquot_err ≠ 0 then
        RemountResult.err dquot_err
          { v3 with s_flags := old_flags, opts := old_opts }
      else
        let v4 := { v3 with s_flags := v3.s_flags ||| MS_RDONLY }
        let v5 := if v4.es_state &&& EXT4_VALID_FS = 0 ∧
            v4.mount_state &&& EXT4_VALID_FS ≠ 0 then
            { v4 with es_state := v4.mount_state }
          else v4
        remount_finish old_flags v5
    else
      if ext4_feature_set_ok incompat_supp ro_supp blkcnt64
          v3.sbi.features false = false then
        RemountResult.err EROFS
          { v3 with s_flags := old_flags, opts := old_opts }
      else if descs_csums_ok v3.sbi v3.descs 0 = false then
        RemountResult.err EINVAL
          { v3 with s_flags := old_flags, opts := old_opts }
      else if v3.es_last_orphan ≠ 0 then
        RemountResult.err EINVAL
          { v3 with s_flags := old_flags, opts := old_opts }
      else
        let v6 := { v3 with mount_state := v3.es_state }
        let setup_res := if EXT4_MAX_SUPP_REV < v6.rev_level then MS_RDONLY
          else 0
        let v7 := if setup_res = 0 then
            { v6 with s_flags := bitclear v6.s_flags MS_RDONLY }
          else v6
        if v7.sbi.features.incompat &&& EXT4_FEATURE_INCOMPAT_MMP ≠ 0 ∧
            mmp_fail = true then
          RemountResult.err EROFS
            { v7 with s_flags := old_flags, opts := old_opts }
        else remount_finish old_flags v7
  else remount_finish old_flags v3

/-- Shallow embedding of `ext4_remount` (super.c lines 4378-4587).
`parsed` is the outcome of the `parse_options` front door (out of scope
per the spec): `none` for a parse failure, otherwise the resulting option
fields; `dquot_err` is the result of `dquot_suspend` (0 = success) and
`mmp_fail` the outcome of multi-mount protection, both collaborator
calls.  Every failing path returns through `restore_opts`, which
reinstates the saved flags and option snapshot. -/
def ext4_remount (incompat_supp ro_supp : Nat) (blkcnt64 : Bool)
    (v0 : RemountVol) (req_rdonly : Bool) (parsed : Option MountOptions)
    (dquot_err : Nat) (mmp_fail : Bool) : RemountResult :=
  let old_flags := v0.s_flags
  let old_opts := v0.opts
  match parsed with
  | none => RemountResult.err EINVAL
      { v0 with s_flags := old_flags, opts := old_opts }
  | some newopts =>
    let v1 := { v0 with opts := newopts }
    if v1.opts.s_mount_opt &&& EXT4_MOUNT_DATA_FLAGS =
        EXT4_MOUNT_JOURNAL_DATA ∧
        v1.opts.s_mount_opt2 &&& EXT4_MOUNT2_EXPLICIT_DELALLOC ≠ 0 then
      RemountResult.err EINVAL
        { v1 with s_flags := old_flags, opts := old_opts }
    else if v1.opts.s_mount_opt &&& EXT4_MOUNT_DATA_FLAGS =
        EXT4_MOUNT_JOURNAL_DATA ∧
        v1.opts.s_mount_opt &&& EXT4_MOUNT_DIOREAD_NOLOCK ≠ 0 then
      RemountResult.err EINVAL
        { v1 with s_flags := old_flags, opts := old_opts }
    else
      let ab := if v1.mount_flags &&& EXT4_MF_FS_ABORTED ≠ 0 then
          ext4_abort_step v1
        else (v1, false)
      if ab.2 = true then RemountResult.panicked
      else ext4_remount_cont incompat_supp ro_supp blkcnt64 old_flags
        old_opts ab.1 req_rdonly dquot_err mmp_fail


theorem crc16_append (c : Nat) (l1 l2 : List Nat) :
    crc16 c (l1 ++ l2) = crc16 (crc16 c l1) l2 :=
  List.foldl_append crc16_byte c l1 l2

theorem xor_cancel_left {a b c : Nat} (h : a ^^^ b = a ^^^ c) : b = c := by
  have h2 := congrArg (fun z => a ^^^ z) h
  simpa [← Nat.xor_assoc] using h2

theorem xor_cancel_right {a b c : Nat} (h : a ^^^ c = b ^^^ c) : a = b := by
  rw [Nat.xor_comm a c, Nat.xor_comm b c] at h
  exact xor_cancel_left h

theorem crc16_shift_lt {c : Nat} (h : c < 2 ^ 16) : crc16_shift c < 2 ^ 16 := by
  unfold crc16_shift
  split
  · exact Nat.xor_lt_two_pow (by omega) (by norm_num)
  · omega

theorem xor_A001_high {x : Nat} (hx : x < 2 ^ 15) : 2 ^ 15 ≤ x ^^^ 0xA001 := by
  by_contra hlt
  push_neg at hlt
  have h1 : (x ^^^ 0xA001).testBit 15 = false := Nat.testBit_eq_false_of_lt hlt
  have h2 : (x ^^^ 0xA001).testBit 15 = true := by
    rw [Nat.testBit_xor, Nat.testBit_eq_false_of_lt hx]
    decide
  rw [h1] at h2
  exact Bool.false_ne_true h2

theorem crc16_shift_inj {c1 c2 : Nat} (h1 : c1 < 2 ^ 16) (h2 : c2 < 2 ^ 16)
    (h : crc16_shift c1 = crc16_shift c2) : c1 = c2 := by
  unfold crc16_shift at h
  rcases Nat.mod_two_eq_zero_or_one c1 with hm1 | hm1 <;>
    rcases Nat.mod_two_eq_zero_or_one c2 with hm2 | hm2
  · rw [if_neg (by omega), if_neg (by omega)] at h
    omega
  · rw [if_neg (by omega), if_pos hm2] at h
    have hc2 : c2 / 2 < 2 ^ 15 := by omega
    have := xor_A001_high hc2
    omega
  · rw [if_pos hm1, if_neg (by omega)] at h
    have hc1 : c1 / 2 < 2 ^ 15 := by omega
    have := xor_A001_high hc1
    omega
  · rw [if_pos hm1, if_pos hm2] at h
    have := xor_cancel_right h
    omega

theorem crc16_steps_lt : ∀ (n : Nat) {c : Nat}, c < 2 ^ 16 →
    crc16_steps n c < 2 ^ 16
  | 0, _, h => h
  | n + 1, _, h => crc16_steps_lt n (crc16_shift_lt h)

theorem crc16_steps_inj : ∀ (n : Nat) {c1 c2 : Nat}, c1 < 2 ^ 16 → c2 < 2 ^ 16 →
    crc16_steps n c1 = crc16_steps n c2 → c1 = c2
  | 0, _, _, _, _, h => h
  | n + 1, _, _, h1, h2, h =>
      crc16_shift_inj h1 h2
        (crc16_steps_inj n (crc16_shift_lt h1) (crc16_shift_lt h2) h)

theorem xor_byte_lt {c b : Nat} (hc : c < 2 ^ 16) (hb : b < 256) :
    c ^^^ b < 2 ^ 16 :=
  Nat.xor_lt_two_pow hc (lt_trans hb (by norm_num))

theorem crc16_byte_lt {c b : Nat} (hc : c < 2 ^ 16) (hb : b < 256) :
    crc16_byte c b < 2 ^ 16 :=
  crc16_steps_lt 8 (xor_byte_lt hc hb)

theorem crc16_byte_inj_state {c1 c2 b : Nat} (hc1 : c1 < 2 ^ 16)
    (hc2 : c2 < 2 ^ 16) (hb : b < 256)
    (h : crc16_byte c1 b = crc16_byte c2 b) : c1 = c2 :=
  xor_cancel_right
    (crc16_steps_inj 8 (xor_byte_lt hc1 hb) (xor_byte_lt hc2 hb) h)

theorem crc16_byte_inj_byte {c b1 b2 : Nat} (hc : c < 2 ^ 16) (hb1 : b1 < 256)
    (hb2 : b2 < 256) (h : crc16_byte c b1 = crc16_byte c b2) : b1 = b2 :=
  xor_cancel_left
    (crc16_steps_inj 8 (xor_byte_lt hc hb1) (xor_byte_lt hc hb2) h)

theorem crc16_lt {c : Nat} {l : List Nat} (hc : c < 2 ^ 16)
    (hl : ∀ x ∈ l, x < 256) : crc16 c l < 2 ^ 16 := by
  induction l generalizing c with
  | nil => exact hc
  | cons x xs ih =>
      exact ih (crc16_byte_lt hc (hl x (List.mem_cons_self x xs))) fun y hy =>
        hl y (List.mem_cons_of_mem x hy)

theorem crc16_state_ne {c1 c2 : Nat} {l : List Nat} (hc1 : c1 < 2 ^ 16)
    (hc2 : c2 < 2 ^ 16) (hl : ∀ x ∈ l, x < 256) (h : c1 ≠ c2) :
    crc16 c1 l ≠ crc16 c2 l := by
  induction l generalizing c1 c2 with
  | nil => exact h
  | cons x xs ih =>
      have hx : x < 256 := hl x (List.mem_cons_self x xs)
      exact ih (crc16_byte_lt hc1 hx) (crc16_byte_lt hc2 hx)
        (fun y hy => hl y (List.mem_cons_of_mem x hy))
        (fun he => h (crc16_byte_inj_state hc1 hc2 hx he))

/-- Flipping a single byte of the input changes the CRC-16 value. -/
theorem crc16_set_ne {c : Nat} {l : List Nat} {p b : Nat} (hc : c < 2 ^ 16)
    (hl : ∀ x ∈ l, x < 256) (hp : p < l.length) (hb : b < 256)
    (hne : b ≠ l.get ⟨p, hp⟩) :
    crc16 c (l.set p b) ≠ crc16 c l := by
  induction l generalizing c p with
  | nil => exact absurd hp (by simp)
  | cons x xs ih =>
      have hx : x < 256 := hl x (List.mem_cons_self x xs)
      have hxs : ∀ y ∈ xs, y < 256 := fun y hy => hl y (List.mem_cons_of_mem x hy)
      cases p with
      | zero =>
          simp only [List.set, crc16, List.foldl_cons]
          have hhead : crc16_byte c b ≠ crc16_byte c x := by
            intro he
            exact hne (crc16_byte_inj_byte hc hb hx he)
          exact crc16_state_ne (crc16_byte_lt hc hb) (crc16_byte_lt hc hx)
            hxs hhead
      | succ q =>
          simp only [List.set, crc16, List.foldl_cons]
          have hq : q < xs.length := by simpa using hp
          have hne' : b ≠ xs.get ⟨q, hq⟩ := by simpa using hne
          exact ih (crc16_byte_lt hc hx) hxs hq hne'

theorem csum_eq_covered (sbi : SbInfo) (bg : Nat) (gdp : List Nat)
    (hE : sbi.features.ro_compat &&& EXT4_FEATURE_RO_COMPAT_GDT_CSUM ≠ 0) :
    ext4_group_desc_csum sbi bg gdp =
      crc16 0xFFFF (sbi.uuid ++ le32_bytes bg ++ csum_covered sbi gdp) := by
  unfold ext4_group_desc_csum csum_covered
  rw [if_pos hE]
  by_cases ht : sbi.features.incompat &&& EXT4_FEATURE_INCOMPAT_64BIT ≠ 0 ∧
      bg_checksum_offset + 2 < sbi.desc_size
  · simp only [if_pos ht, crc16_append]
  · simp only [if_neg ht, List.append_nil, crc16_append]

theorem csum_covered_bytes {sbi : SbInfo} {gdp : List Nat}
    (hgdp : ∀ x ∈ gdp, x < 256) : ∀ x ∈ csum_covered sbi gdp, x < 256 := by
  intro x hx
  unfold csum_covered at hx
  rcases List.mem_append.mp hx with h | h
  · exact hgdp x (List.mem_of_mem_take h)
  · split at h
    · exact hgdp x (List.mem_of_mem_drop (List.mem_of_mem_take h))
    · simp at h

theorem le32_bytes_lt (n : Nat) : ∀ x ∈ le32_bytes n, x < 256 := by
  intro x hx
  simp only [le32_bytes, List.mem_cons, List.not_mem_nil, or_false] at hx
  rcases hx with h | h | h | h <;> subst h <;> omega

theorem csum_msg_bytes {sbi : SbInfo} {bg : Nat} {gdp : List Nat}
    (huuid : ∀ x ∈ sbi.uuid, x < 256) (hgdp : ∀ x ∈ gdp, x < 256) :
    ∀ x ∈ sbi.uuid ++ le32_bytes bg ++ csum_covered sbi gdp, x < 256 := by
  intro x hx
  rcases List.mem_append.mp hx with h | h
  · rcases List.mem_append.mp h with h2 | h2
    · exact huuid x h2
    · exact le32_bytes_lt bg x h2
  · exact csum_covered_bytes hgdp x h

/-- Setting a byte of the fixed covered part commutes with `csum_covered`. -/
theorem csum_covered_set_lo (sbi : SbInfo) (gdp : List Nat) {p : Nat}
    (b : Nat) (hp30 : p < bg_checksum_offset) (hplen : p < gdp.length) :
    csum_covered sbi (gdp.set p b) = (csum_covered sbi gdp).set p b := by
  unfold csum_covered
  have htake : (gdp.set p b).take bg_checksum_offset =
      (gdp.take bg_checksum_offset).set p b := List.set_take
  have hdrop : (gdp.set p b).drop (bg_checksum_offset + 2) =
      gdp.drop (bg_checksum_offset + 2) := by
    rw [List.drop_set]
    rw [if_pos (by omega)]
  rw [htake, hdrop]
  have hlen : p < (gdp.take bg_checksum_offset).length := by
    rw [List.length_take]
    omega
  rw [List.set_append_left p b hlen]

/-- Setting a byte of the large-descriptor tail commutes with
`csum_covered`, landing two positions earlier (the skipped checksum
field). -/
theorem csum_covered_set_hi (sbi : SbInfo) (gdp : List Nat) {p : Nat}
    (b : Nat)
    (h64 : sbi.features.incompat &&& EXT4_FEATURE_INCOMPAT_64BIT ≠ 0)
    (hp : bg_checksum_offset + 2 ≤ p) (hpd : p < sbi.desc_size)
    (hlen : sbi.desc_size ≤ gdp.length) :
    csum_covered sbi (gdp.set p b) =
      (csum_covered sbi gdp).set (p - 2) b := by
  have ht : sbi.features.incompat &&& EXT4_FEATURE_INCOMPAT_64BIT ≠ 0 ∧
      bg_checksum_offset + 2 < sbi.desc_size := ⟨h64, by omega⟩
  unfold csum_covered
  rw [if_pos ht, if_pos ht]
  have htake : (gdp.set p b).take bg_checksum_offset =
      gdp.take bg_checksum_offset := by
    rw [List.set_take, List.set_eq_of_length_le]
    rw [List.length_take]
    omega
  have hdrop : (gdp.set p b).drop (bg_checksum_offset + 2) =
      (gdp.drop (bg_checksum_offset + 2)).set (p - (bg_checksum_offset + 2))
        b := by
    rw [List.drop_set, if_neg (by omega)]
  rw [htake, hdrop, List.set_take]
  have hlentake : (gdp.take bg_checksum_offset).length = bg_checksum_offset := by
    rw [List.length_take]
    omega
  rw [List.set_append_right _ b (by omega : (gdp.take bg_checksum_offset).length ≤ p - 2),
    hlentake]
  have hidx : p - (bg_checksum_offset + 2) = p - 2 - bg_checksum_offset := by
    omega
  rw [hidx]

theorem csum_covered_getD_lo (sbi : SbInfo) (gdp : List Nat) {p : Nat}
    (hp30 : p < bg_checksum_offset) (hplen : p < gdp.length) :
    (csum_covered sbi gdp).getD p 0 = gdp.getD p 0 := by
  unfold csum_covered
  have hlen : p < (gdp.take bg_checksum_offset).length := by
    rw [List.length_take]
    omega
  rw [List.getD_append _ _ _ _ hlen, List.getD_eq_getElem _ _ hlen,
    List.getElem_take, List.getD_eq_getElem _ _ hplen]

theorem csum_covered_getD_hi (sbi : SbInfo) (gdp : List Nat) {p : Nat}
    (h64 : sbi.features.incompat &&& EXT4_FEATURE_INCOMPAT_64BIT ≠ 0)
    (hp : bg_checksum_offset + 2 ≤ p) (hpd : p < sbi.desc_size)
    (hlen : sbi.desc_size ≤ gdp.length) :
    (csum_covered sbi gdp).getD (p - 2) 0 = gdp.getD p 0 := by
  have ht : sbi.features.incompat &&& EXT4_FEATURE_INCOMPAT_64BIT ≠ 0 ∧
      bg_checksum_offset + 2 < sbi.desc_size := ⟨h64, by omega⟩
  unfold csum_covered
  rw [if_pos ht]
  have hlentake : (gdp.take bg_checksum_offset).length = bg_checksum_offset := by
    rw [List.length_take]
    omega
  rw [List.getD_append_right _ _ _ _ (by omega : (gdp.take bg_checksum_offset).length ≤ p - 2),
    hlentake]
  have hq : p - 2 - bg_checksum_offset = p - (bg_checksum_offset + 2) := by
    omega
  rw [hq]
  have hdl : (bg_checksum_offset + 2) + (p - (bg_checksum_offset + 2)) <
      gdp.length := by omega
  have hql : p - (bg_checksum_offset + 2) <
      ((gdp.drop (bg_checksum_offset + 2)).take
        (sbi.desc_size - (bg_checksum_offset + 2))).length := by
    rw [List.length_take, List.length_drop]
    omega
  have hq2 : p - (bg_checksum_offset + 2) <
      (gdp.drop (bg_checksum_offset + 2)).length := by
    rw [List.length_drop]
    omega
  rw [List.getD_eq_getElem _ _ hql, List.getElem_take,
    ← List.getD_eq_getElem _ 0 hq2]
  have : (gdp.drop (bg_checksum_offset + 2)).getD
      (p - (bg_checksum_offset + 2)) 0 = gdp.getD
      ((bg_checksum_offset + 2) + (p - (bg_checksum_offset + 2))) 0 := by
    rw [List.getD_eq_getElem _ _ hq2, List.getD_eq_getElem _ _ hdl,
      List.getElem_drop]
  rw [this]
  congr 1
  omega

theorem csum_covered_length_lo (sbi : SbInfo) (gdp : List Nat) {p : Nat}
    (hp30 : p < bg_checksum_offset) (hplen : p < gdp.length) :
    p < (csum_covered sbi gdp).length := by
  unfold csum_covered
  rw [List.length_append, List.length_take]
  omega

theorem csum_covered_length_hi (sbi : SbInfo) (gdp : List Nat) {p : Nat}
    (h64 : sbi.features.incompat &&& EXT4_FEATURE_INCOMPAT_64BIT ≠ 0)
    (hp : bg_checksum_offset + 2 ≤ p) (hpd : p < sbi.desc_size)
    (hlen : sbi.desc_size ≤ gdp.length) :
    p - 2 < (csum_covered sbi gdp).length := by
  have ht : sbi.features.incompat &&& EXT4_FEATURE_INCOMPAT_64BIT ≠ 0 ∧
      bg_checksum_offset + 2 < sbi.desc_size := ⟨h64, by omega⟩
  unfold csum_covered
  rw [if_pos ht, List.length_append, List.length_take, List.length_take,
    List.length_drop]
  omega

theorem crc16_set_ne_getD {c : Nat} {l : List Nat} {p b : Nat}
    (hc : c < 2 ^ 16) (hl : ∀ x ∈ l, x < 256) (hp : p < l.length)
    (hb : b < 256) (hne : b ≠ l.getD p 0) :
    crc16 c (l.set p b) ≠ crc16 c l := by
  refine crc16_set_ne hc hl hp hb ?_
  rwa [List.get_eq_getElem, ← List.getD_eq_getElem _ 0 hp]

theorem check_loop_ro (sbi : SbInfo) (flexbg : Bool) :
    ∀ (descs : List (List Nat)) (i fb grp : Nat),
      descs_ranges_ok sbi flexbg descs i fb = true →
      (check_descriptors_loop sbi true flexbg descs i fb grp).1 = true := by
  intro descs
  induction descs with
  | nil => intro i fb grp _; rfl
  | cons gdp rest ih =>
      intro i fb grp h
      simp only [descs_ranges_ok, Bool.and_eq_true] at h
      simp only [check_descriptors_loop]
      rw [if_neg (by simp [h.1]), if_neg (by simp)]
      exact ih _ _ _ h.2

theorem check_loop_all_ok (sbi : SbInfo) (flexbg rdonly : Bool) :
    ∀ (descs : List (List Nat)) (i fb grp : Nat),
      descs_ranges_ok sbi flexbg descs i fb = true →
      descs_csums_ok sbi descs i = true →
      (check_descriptors_loop sbi rdonly flexbg descs i fb grp).1 = true := by
  intro descs
  induction descs with
  | nil => intro i fb grp _ _; rfl
  | cons gdp rest ih =>
      intro i fb grp h hc
      simp only [descs_ranges_ok, Bool.and_eq_true] at h
      simp only [descs_csums_ok, Bool.and_eq_true] at hc
      simp only [check_descriptors_loop]
      rw [if_neg (by simp [h.1]), if_neg (by simp [hc.1])]
      exact ih _ _ _ h.2 hc.2

theorem check_loop_csum_fail (sbi : SbInfo) (flexbg : Bool) :
    ∀ (descs : List (List Nat)) (i fb grp : Nat),
      descs_ranges_ok sbi flexbg descs i fb = true →
      descs_csums_ok sbi descs i = false →
      (check_descriptors_loop sbi false flexbg descs i fb grp).1 = false := by
  intro descs
  induction descs with
  | nil => intro i fb grp _ hc; simp [descs_csums_ok] at hc
  | cons gdp rest ih =>
      intro i fb grp h hc
      simp only [descs_ranges_ok, Bool.and_eq_true] at h
      simp only [check_descriptors_loop]
      rw [if_neg (by simp [h.1])]
      cases hv : ext4_group_desc_csum_verify sbi i gdp with
      | false => simp
      | true =>
          rw [if_neg (by simp [hv])]
          refine ih _ _ _ h.2 ?_
          simpa [descs_csums_ok, hv] using hc

theorem csums_ok_of_disabled (sbi : SbInfo)
    (hoff : sbi.features.ro_compat &&& EXT4_FEATURE_RO_COMPAT_GDT_CSUM = 0) :
    ∀ (descs : List (List Nat)) (i : Nat), descs_csums_ok sbi descs i = true := by
  intro descs
  induction descs with
  | nil => intro i; rfl
  | cons gdp rest ih =>
      intro i
      simp only [descs_csums_ok, Bool.and_eq_true]
      refine ⟨?_, ih _⟩
      unfold ext4_group_desc_csum_verify
      rw [if_neg (by simp [hoff])]

theorem orphan_loop_chain (resolve : Nat → Option OrphanInode) :
    ∀ (c : List Nat) (head fuel : Nat),
      chain_ok resolve head c = true → c.length ≤ fuel →
      (orphan_loop resolve fuel head).head = 0 ∧
      (orphan_loop resolve fuel head).truncates +
        (orphan_loop resolve fuel head).deletes = c.length ∧
      (orphan_loop resolve fuel head).resolved = c.length := by
  intro c
  induction c with
  | nil =>
      intro head fuel hc _
      have h0 : head = 0 := by simpa [chain_ok] using hc
      subst h0
      cases fuel <;> simp [orphan_loop]
  | cons i rest ih =>
      intro head fuel hc hlen
      simp only [chain_ok, Bool.and_eq_true, beq_iff_eq, bne_iff_ne] at hc
      obtain ⟨⟨hhead, hi⟩, hrest⟩ := hc
      rw [hhead]
      cases hres : resolve i with
      | none => rw [hres] at hrest; simp at hrest
      | some ino =>
          rw [hres] at hrest
          cases fuel with
          | zero => simp at hlen
          | succ f =>
              have hlen' : rest.length ≤ f := by simpa using hlen
              have hr := ih ino.i_next f hrest hlen'
              simp only [orphan_loop, if_neg hi, hres]
              by_cases hn : ino.i_nlink ≠ 0
              · rw [if_pos hn]
                refine ⟨hr.1, ?_, ?_⟩ <;> simp only [List.length_cons] <;> omega
              · rw [if_neg hn]
                refine ⟨hr.1, ?_, ?_⟩ <;> simp only [List.length_cons] <;> omega

theorem save_error_info_s_flags (s : ErrState) (func : String)
    (line now : Nat) : (save_error_info s func line now).s_flags = s.s_flags := by
  unfold save_error_info __save_error_info
  dsimp only
  split <;> split <;> rfl

theorem bitclear_or_and (x m p n : Nat) (hmn : m &&& n = 0)
    (hpn : p &&& n = 0) : ((bitclear x m) ||| p) &&& n = x &&& n := by
  apply Nat.eq_of_testBit_eq
  intro i
  have h1 : (m &&& n).testBit i = false := by
    rw [hmn]
    exact Nat.zero_testBit i
  have h2 : (p &&& n).testBit i = false := by
    rw [hpn]
    exact Nat.zero_testBit i
  rw [Nat.testBit_land] at h1 h2
  unfold bitclear
  rw [Nat.testBit_land, Nat.testBit_lor, Nat.testBit_xor, Nat.testBit_land,
    Nat.testBit_land]
  cases hm : m.testBit i <;> cases hn : n.testBit i <;>
    cases hx : x.testBit i <;> cases hp2 : p.testBit i <;> simp_all

theorem ext4_abort_step_rdonly (v : RemountVol)
    (hro : v.s_flags &&& MS_RDONLY ≠ 0)
    (hnp : v.opts.s_mount_opt &&& EXT4_MOUNT_ERRORS_PANIC ≠ 0 →
      v.journal_present = true ∧ v.journal_rec_err = false) :
    ext4_abort_step v = ({ v with error_saves := v.error_saves + 1 }, false) := by
  unfold ext4_abort_step
  dsimp only
  rw [if_neg hro]
  by_cases hp : v.opts.s_mount_opt &&& EXT4_MOUNT_ERRORS_PANIC ≠ 0
  · rw [if_pos hp, if_pos (hnp hp)]
  · rw [if_neg hp]

theorem remount_cont_orphan (incompat_supp ro_supp : Nat) (blkcnt64 : Bool)
    (old_flags : Nat) (old_opts : MountOptions) (v2 : RemountVol)
    (dquot_err : Nat) (mmp_fail : Bool)
    (hro : v2.s_flags &&& MS_RDONLY ≠ 0)
    (horph : v2.es_last_orphan ≠ 0) :
    ∃ c, c ≠ 0 ∧
      ext4_remount_cont incompat_supp ro_supp blkcnt64 old_flags old_opts
        v2 false dquot_err mmp_fail =
      RemountResult.err c { v2 with s_flags := old_flags, opts := old_opts } := by
  unfold ext4_remount_cont
  dsimp only
  have hpn : (if v2.opts.s_mount_opt &&& EXT4_MOUNT_POSIX_ACL ≠ 0 then
      MS_POSIXACL else 0) &&& MS_RDONLY = 0 := by
    split <;> decide
  have hflag : (bitclear v2.s_flags MS_POSIXACL |||
      (if v2.opts.s_mount_opt &&& EXT4_MOUNT_POSIX_ACL ≠ 0 then
        MS_POSIXACL else 0)) &&& MS_RDONLY = v2.s_flags &&& MS_RDONLY :=
    bitclear_or_and _ _ _ _ (by decide) hpn
  have hcur : ((bitclear v2.s_flags MS_POSIXACL |||
      (if v2.opts.s_mount_opt &&& EXT4_MOUNT_POSIX_ACL ≠ 0 then
        MS_POSIXACL else 0)) &&& MS_RDONLY != 0) = true := by
    rw [bne_iff_ne, hflag]
    exact hro
  rw [if_pos (by rw [hcur]; decide : (false : Bool) ≠ _)]
  by_cases hab : v2.mount_flags &&& EXT4_MF_FS_ABORTED ≠ 0
  · rw [if_pos hab]
    exact ⟨EROFS, by decide, rfl⟩
  · rw [if_neg hab, if_neg (by decide : ¬((false : Bool) = true))]
    by_cases hfeat : ext4_feature_set_ok incompat_supp ro_supp blkcnt64
        v2.sbi.features false = false
    · rw [if_pos hfeat]
      exact ⟨EROFS, by decide, rfl⟩
    · rw [if_neg hfeat]
      by_cases hcs : descs_csums_ok v2.sbi v2.descs 0 = false
      · rw [if_pos hcs]
        exact ⟨EINVAL, by decide, rfl⟩
      · rw [if_neg hcs, if_pos horph]
        exact ⟨EINVAL, by decide, rfl⟩

end Ext4

open Ext4

/-- C6: when enabled, the descriptor checksum is a deterministic 16-bit
function of exactly the volume UUID, the group index and the covered
descriptor bytes (the bytes before the checksum field plus, for large
64-bit descriptors, the tail after it up to the descriptor size):
(i) the result is 16-bit; (ii) two descriptors agreeing on the covered
bytes — whatever their checksum field or bytes beyond the descriptor size
— have the same checksum; (iii) flipping any single byte inside the
covered range changes the checksum. -/
theorem C6_descriptor_checksum_range (sbi : SbInfo) (bg : Nat)
    (gdp gdp2 : List Nat) (p b : Nat)
    (huuid : ∀ x ∈ sbi.uuid, x < 256) (hgdp : ∀ x ∈ gdp, x < 256) :
    (ext4_group_desc_csum sbi bg gdp < 2 ^ 16) ∧
    (gdp.take bg_checksum_offset = gdp2.take bg_checksum_offset →
      (gdp.drop (bg_checksum_offset + 2)).take
          (sbi.desc_size - (bg_checksum_offset + 2)) =
        (gdp2.drop (bg_checksum_offset + 2)).take
          (sbi.desc_size - (bg_checksum_offset + 2)) →
      ext4_group_desc_csum sbi bg gdp = ext4_group_desc_csum sbi bg gdp2) ∧
    (sbi.features.ro_compat &&& EXT4_FEATURE_RO_COMPAT_GDT_CSUM ≠ 0 →
      sbi.desc_size ≤ gdp.length →
      p < gdp.length →
      (p < bg_checksum_offset ∨
        (sbi.features.incompat &&& EXT4_FEATURE_INCOMPAT_64BIT ≠ 0 ∧
          bg_checksum_offset + 2 ≤ p ∧ p < sbi.desc_size)) →
      b < 256 → b ≠ gdp.getD p 0 →
      ext4_group_desc_csum sbi bg (gdp.set p b) ≠
        ext4_group_desc_csum sbi bg gdp) := by
  refine ⟨?_, ?_, ?_⟩
  · by_cases hE : sbi.features.ro_compat &&& EXT4_FEATURE_RO_COMPAT_GDT_CSUM ≠ 0
    · rw [csum_eq_covered _ _ _ hE]
      exact crc16_lt (by norm_num) (csum_msg_bytes huuid hgdp)
    · unfold ext4_group_desc_csum
      rw [if_neg hE]
      norm_num
  · intro h30 htail
    by_cases hE : sbi.features.ro_compat &&& EXT4_FEATURE_RO_COMPAT_GDT_CSUM ≠ 0
    · rw [csum_eq_covered _ _ _ hE, csum_eq_covered _ _ _ hE]
      have hcc : csum_covered sbi gdp = csum_covered sbi gdp2 := by
        unfold csum_covered
        rw [h30]
        by_cases ht : sbi.features.incompat &&& EXT4_FEATURE_INCOMPAT_64BIT ≠ 0 ∧
            bg_checksum_offset + 2 < sbi.desc_size
        · rw [if_pos ht, if_pos ht, htail]
        · rw [if_neg ht, if_neg ht]
      rw [hcc]
    · unfold ext4_group_desc_csum
      rw [if_neg hE, if_neg hE]
  · intro hE hdc hp hcov hb hne
    have hset : ∀ x ∈ gdp.set p b, x < 256 := by
      intro x hx
      rcases List.mem_or_eq_of_mem_set hx with h | h
      · exact hgdp x h
      · omega
    rw [csum_eq_covered _ _ _ hE, csum_eq_covered _ _ _ hE]
    simp only [crc16_append]
    have hc0 : crc16 (crc16 0xFFFF sbi.uuid) (le32_bytes bg) < 2 ^ 16 :=
      crc16_lt (crc16_lt (by norm_num) huuid) (le32_bytes_lt bg)
    rcases hcov with hlo | ⟨h64, hge, hlt⟩
    · rw [csum_covered_set_lo sbi gdp b hlo (by omega)]
      exact crc16_set_ne_getD hc0 (csum_covered_bytes hgdp)
        (csum_covered_length_lo sbi gdp hlo (by omega)) hb
        (by rw [csum_covered_getD_lo sbi gdp hlo (by omega)]; exact hne)
    · rw [csum_covered_set_hi sbi gdp b h64 hge hlt hdc]
      exact crc16_set_ne_getD hc0 (csum_covered_bytes hgdp)
        (csum_covered_length_hi sbi gdp h64 hge hlt hdc) hb
        (by rw [csum_covered_getD_hi sbi gdp h64 hge hlt hdc]; exact hne)

/-- Witness for C6 at a concrete 32-byte descriptor with the checksum
feature enabled: flipping covered byte 0 changes the checksum. -/
theorem C6_descriptor_checksum_range_witness :
    ((∀ x ∈ (List.replicate 16 0 : List Nat), x < 256) ∧
      (∀ x ∈ (List.replicate 32 0 : List Nat), x < 256)) ∧
    ext4_group_desc_csum ⟨List.replicate 16 0, 32, ⟨0, 0, 0x10⟩, 0, 0, 0, 0, 0⟩
        1 ((List.replicate 32 0).set 0 1) ≠
      ext4_group_desc_csum ⟨List.replicate 16 0, 32, ⟨0, 0, 0x10⟩, 0, 0, 0, 0, 0⟩
        1 (List.replicate 32 0) :=
  ⟨⟨by decide, by decide⟩,
    (C6_descriptor_checksum_range
        ⟨List.replicate 16 0, 32, ⟨0, 0, 0x10⟩, 0, 0, 0, 0, 0⟩ 1
        (List.replicate 32 0) (List.replicate 32 0) 0 1
        (by decide) (by decide)).2.2
      (by decide) (by decide) (by decide) (Or.inl (by decide))
      (by decide) (by decide)⟩

/-- C2: group-descriptor verification over a table whose descriptors'
bitmap and inode-table locations are all in range: a read-only mount
verifies successfully regardless of checksums; with all checksums correct
(in particular whenever the checksum feature is disabled) verification
succeeds in both modes; and any checksum mismatch fails verification for
a writable mount. -/
theorem C2_group_descriptor_verification (sbi : SbInfo)
    (descs : List (List Nat))
    (hranges : descs_ranges_ok sbi
      (sbi.features.incompat &&& EXT4_FEATURE_INCOMPAT_FLEX_BG != 0)
      descs 0 sbi.first_data_block = true) :
    ((ext4_check_descriptors sbi true descs).1 = true) ∧
    (descs_csums_ok sbi descs 0 = true →
      ∀ rdonly, (ext4_check_descriptors sbi rdonly descs).1 = true) ∧
    (sbi.features.ro_compat &&& EXT4_FEATURE_RO_COMPAT_GDT_CSUM = 0 →
      descs_csums_ok sbi descs 0 = true) ∧
    (descs_csums_ok sbi descs 0 = false →
      (ext4_check_descriptors sbi false descs).1 = false) := by
  refine ⟨?_, ?_, ?_, ?_⟩
  · exact check_loop_ro _ _ _ _ _ _ hranges
  · intro hc rdonly
    exact check_loop_all_ok _ _ rdonly _ _ _ _ hranges hc
  · intro hoff
    exact csums_ok_of_disabled sbi hoff descs 0
  · intro hc
    exact check_loop_csum_fail _ _ _ _ _ _ hranges hc

/-- Witness for C2 at a concrete one-group table with in-range locations
(block bitmap 2, inode bitmap 3, inode table 4 inside [1, 99]) and the
checksum feature disabled: verification succeeds in both modes. -/
theorem C2_group_descriptor_verification_witness :
    (descs_ranges_ok ⟨[], 32, ⟨0, 0, 0⟩, 1, 100, 100, 1, 1⟩
        ((⟨[], 32, ⟨0, 0, 0⟩, 1, 100, 100, 1, 1⟩ : SbInfo).features.incompat &&&
          EXT4_FEATURE_INCOMPAT_FLEX_BG != 0)
        [[2, 0, 0, 0, 3, 0, 0, 0, 4, 0, 0, 0]] 0
        (⟨[], 32, ⟨0, 0, 0⟩, 1, 100, 100, 1, 1⟩ : SbInfo).first_data_block =
      true) ∧
    (ext4_check_descriptors ⟨[], 32, ⟨0, 0, 0⟩, 1, 100, 100, 1, 1⟩ true
      [[2, 0, 0, 0, 3, 0, 0, 0, 4, 0, 0, 0]]).1 = true ∧
    (ext4_check_descriptors ⟨[], 32, ⟨0, 0, 0⟩, 1, 100, 100, 1, 1⟩ false
      [[2, 0, 0, 0, 3, 0, 0, 0, 4, 0, 0, 0]]).1 = true :=
  have h := C2_group_descriptor_verification
    ⟨[], 32, ⟨0, 0, 0⟩, 1, 100, 100, 1, 1⟩
    [[2, 0, 0, 0, 3, 0, 0, 0, 4, 0, 0, 0]] (by decide)
  ⟨by decide, h.1, h.2.1 (by decide) false⟩

/-- C1: the feature-compatibility check rejects any superblock carrying an
incompatible-feature bit outside the supported set, for both writable and
read-only requests; when all incompatible bits are supported, an unknown
read-only-compatible bit fails exactly the writable request (the read-only
request succeeds); and the compatible-feature bitset never influences the
outcome. -/
theorem C1_feature_gate (incompat_supp ro_supp : Nat) (blkcnt64 : Bool)
    (fs : FeatureSet) :
    ((fs.incompat &&& compl32 incompat_supp ≠ 0 →
        ext4_feature_set_ok incompat_supp ro_supp blkcnt64 fs true = false ∧
        ext4_feature_set_ok incompat_supp ro_supp blkcnt64 fs false = false) ∧
     (fs.incompat &&& compl32 incompat_supp = 0 →
      fs.ro_compat &&& compl32 ro_supp ≠ 0 →
        ext4_feature_set_ok incompat_supp ro_supp blkcnt64 fs true = true ∧
        ext4_feature_set_ok incompat_supp ro_supp blkcnt64 fs false = false) ∧
     (∀ c readonly,
        ext4_feature_set_ok incompat_supp ro_supp blkcnt64
          { fs with compat := c } readonly =
        ext4_feature_set_ok incompat_supp ro_supp blkcnt64 fs readonly)) := by
  refine ⟨fun h => ?_, fun h h' => ?_, fun c readonly => ?_⟩
  · constructor <;> simp [ext4_feature_set_ok, h]
  · constructor <;> simp [ext4_feature_set_ok, h, h']
  · rfl

/-- Witness for C1 at a concrete superblock: incompatible bit `0x10000`
outside a supported set `0xFFFF`, unknown read-only-compatible bit case
checked with incompat clean. -/
theorem C1_feature_gate_witness :
    ((⟨0, 0x10000, 0⟩ : FeatureSet).incompat &&& compl32 0xFFFF ≠ 0 ∧
     ext4_feature_set_ok 0xFFFF 0xFFFF true ⟨0, 0x10000, 0⟩ false = false) ∧
    ((⟨0, 0x40, 0x10000⟩ : FeatureSet).incompat &&& compl32 0xFFFF = 0 ∧
     (⟨0, 0x40, 0x10000⟩ : FeatureSet).ro_compat &&& compl32 0xFFFF ≠ 0 ∧
     ext4_feature_set_ok 0xFFFF 0xFFFF true ⟨0, 0x40, 0x10000⟩ true = true ∧
     ext4_feature_set_ok 0xFFFF 0xFFFF true ⟨0, 0x40, 0x10000⟩ false = false) := by
  have h1 := (C1_feature_gate 0xFFFF 0xFFFF true ⟨0, 0x10000, 0⟩).1 (by decide)
  have h2 := ((C1_feature_gate 0xFFFF 0xFFFF true ⟨0, 0x40, 0x10000⟩).2.1
    (by decide) (by decide))
  exact ⟨⟨by decide, h1.2⟩, ⟨by decide, by decide, h2.1, h2.2⟩⟩

/-- C3: on a writable, error-free volume whose feature set permits a
writable mount, orphan cleanup over a well-formed chain of N entries
terminates — any iteration budget of at least N completes the walk —
with the orphan head pointer zero afterwards, truncations plus deletions
equal to N, and the saved mount flags restored. -/
theorem C3_orphan_convergence (incompat_supp ro_supp : Nat) (blkcnt64 : Bool)
    (features : FeatureSet) (mount_state : Nat)
    (resolve : Nat → Option OrphanInode) (s_flags head fuel : Nat)
    (c : List Nat)
    (hchain : chain_ok resolve head c = true)
    (hfeat : ext4_feature_set_ok incompat_supp ro_supp blkcnt64 features
      false = true)
    (herr : mount_state &&& EXT4_ERROR_FS = 0)
    (hfuel : c.length ≤ fuel) :
    (ext4_orphan_cleanup incompat_supp ro_supp blkcnt64 features false
        mount_state resolve s_flags head fuel).last_orphan = 0 ∧
    (ext4_orphan_cleanup incompat_supp ro_supp blkcnt64 features false
        mount_state resolve s_flags head fuel).nr_truncates +
      (ext4_orphan_cleanup incompat_supp ro_supp blkcnt64 features false
        mount_state resolve s_flags head fuel).nr_orphans = c.length ∧
    (ext4_orphan_cleanup incompat_supp ro_supp blkcnt64 features false
        mount_state resolve s_flags head fuel).s_flags = s_flags := by
  by_cases h0 : head = 0
  · subst h0
    cases c with
    | nil => simp [ext4_orphan_cleanup]
    | cons i rest =>
        simp [chain_ok] at hchain
        exact absurd hchain.1.1.symm hchain.1.2
  · unfold ext4_orphan_cleanup
    rw [if_neg h0, if_neg (by simp), if_neg (by simp [hfeat]),
      if_neg (by simp [herr])]
    have h := orphan_loop_chain resolve c head fuel hchain hfuel
    exact ⟨h.1, h.2.1, rfl⟩

/-- Witness for C3: a two-entry chain (inode 1 pending truncation linking
to inode 2 pending deletion) is drained completely. -/
theorem C3_orphan_convergence_witness :
    (chain_ok (fun n => if n = 1 then some ⟨1, 2⟩ else
        if n = 2 then some ⟨0, 0⟩ else none) 1 [1, 2] = true) ∧
    (ext4_feature_set_ok 0 0 true ⟨0, 0, 0⟩ false = true) ∧
    ((0 : Nat) &&& EXT4_ERROR_FS = 0) ∧
    (([1, 2] : List Nat).length ≤ 2) ∧
    ((ext4_orphan_cleanup 0 0 true ⟨0, 0, 0⟩ false 0
        (fun n => if n = 1 then some ⟨1, 2⟩ else
          if n = 2 then some ⟨0, 0⟩ else none) 7 1 2).last_orphan = 0 ∧
      (ext4_orphan_cleanup 0 0 true ⟨0, 0, 0⟩ false 0
        (fun n => if n = 1 then some ⟨1, 2⟩ else
          if n = 2 then some ⟨0, 0⟩ else none) 7 1 2).nr_truncates +
        (ext4_orphan_cleanup 0 0 true ⟨0, 0, 0⟩ false 0
          (fun n => if n = 1 then some ⟨1, 2⟩ else
            if n = 2 then some ⟨0, 0⟩ else none) 7 1 2).nr_orphans =
        ([1, 2] : List Nat).length ∧
      (ext4_orphan_cleanup 0 0 true ⟨0, 0, 0⟩ false 0
        (fun n => if n = 1 then some ⟨1, 2⟩ else
          if n = 2 then some ⟨0, 0⟩ else none) 7 1 2).s_flags = 7) :=
  ⟨by decide, by decide, by decide, by decide,
    C3_orphan_convergence 0 0 true ⟨0, 0, 0⟩ 0
      (fun n => if n = 1 then some ⟨1, 2⟩ else
        if n = 2 then some ⟨0, 0⟩ else none) 7 1 2 [1, 2]
      (by decide) (by decide) (by decide) (by decide)⟩

/-- Counterexample to C9 as stated: with the error flag set but the
backing device read-only, orphan cleanup returns before reaching the
error-flag branch and leaves the nonzero orphan head pointer (5) in
place instead of clearing it. -/
theorem C9_error_flag_counterexample :
    EXT4_ERROR_FS &&& EXT4_ERROR_FS ≠ 0 ∧
    (ext4_orphan_cleanup 0 0 true ⟨0, 0, 0⟩ true EXT4_ERROR_FS
        (fun _ => none) 0 5 1).last_orphan = 5 := by
  decide

/-- C9 (amended): provided cleanup is not already skipped for lack of
write access or unsupported features — the backing device is writable and
the feature set permits a writable mount — a set error flag makes orphan
cleanup zero the head pointer and return at once, resolving, truncating
and deleting nothing. -/
theorem C9_error_flag_skips_recovery (incompat_supp ro_supp : Nat)
    (blkcnt64 : Bool) (features : FeatureSet) (mount_state : Nat)
    (resolve : Nat → Option OrphanInode) (s_flags head fuel : Nat)
    (hfeat : ext4_feature_set_ok incompat_supp ro_supp blkcnt64 features
      false = true)
    (herr : mount_state &&& EXT4_ERROR_FS ≠ 0) :
    (ext4_orphan_cleanup incompat_supp ro_supp blkcnt64 features false
        mount_state resolve s_flags head fuel).last_orphan = 0 ∧
    (ext4_orphan_cleanup incompat_supp ro_supp blkcnt64 features false
        mount_state resolve s_flags head fuel).nr_truncates = 0 ∧
    (ext4_orphan_cleanup incompat_supp ro_supp blkcnt64 features false
        mount_state resolve s_flags head fuel).nr_orphans = 0 ∧
    (ext4_orphan_cleanup incompat_supp ro_supp blkcnt64 features false
        mount_state resolve s_flags head fuel).nr_resolved = 0 := by
  by_cases h0 : head = 0
  · subst h0
    simp [ext4_orphan_cleanup]
  · unfold ext4_orphan_cleanup
    rw [if_neg h0, if_neg (by simp), if_neg (by simp [hfeat]), if_pos herr]
    exact ⟨rfl, rfl, rfl, rfl⟩

/-- Witness for the amended C9 at a concrete errored volume. -/
theorem C9_error_flag_skips_recovery_witness :
    (ext4_feature_set_ok 0 0 true ⟨0, 0, 0⟩ false = true) ∧
    ((2 : Nat) &&& EXT4_ERROR_FS ≠ 0) ∧
    ((ext4_orphan_cleanup 0 0 true ⟨0, 0, 0⟩ false 2
        (fun _ => none) 0 9 3).last_orphan = 0 ∧
      (ext4_orphan_cleanup 0 0 true ⟨0, 0, 0⟩ false 2
        (fun _ => none) 0 9 3).nr_truncates = 0 ∧
      (ext4_orphan_cleanup 0 0 true ⟨0, 0, 0⟩ false 2
        (fun _ => none) 0 9 3).nr_orphans = 0 ∧
      (ext4_orphan_cleanup 0 0 true ⟨0, 0, 0⟩ false 2
        (fun _ => none) 0 9 3).nr_resolved = 0) :=
  ⟨by decide, by decide,
    C9_error_flag_skips_recovery 0 0 true ⟨0, 0, 0⟩ 2
      (fun _ => none) 0 9 3 (by decide) (by decide)⟩

/-- C7: every error report overwrites the last-error fields with the
current fault, writes the first-error fields only when they were unset
and never overwrites them once set, increments the persisted error
counter by one, arms the daily error-report timer exactly when this is
the first counted error, and issues a synchronous superblock commit. -/
theorem C7_error_reporting (s : ErrState) (func : String) (line now : Nat)
    (hcount : s.error_count + 1 < 2 ^ 32) :
    ((save_error_info s func line now).last_error_time = now ∧
      (save_error_info s func line now).last_error_func = func ∧
      (save_error_info s func line now).last_error_line = line) ∧
    (s.first_error_time ≠ 0 →
      (save_error_info s func line now).first_error_time = s.first_error_time ∧
      (save_error_info s func line now).first_error_func = s.first_error_func ∧
      (save_error_info s func line now).first_error_line = s.first_error_line ∧
      (save_error_info s func line now).first_error_ino = s.first_error_ino ∧
      (save_error_info s func line now).first_error_block =
        s.first_error_block) ∧
    (s.first_error_time = 0 →
      (save_error_info s func line now).first_error_time = now ∧
      (save_error_info s func line now).first_error_func = func ∧
      (save_error_info s func line now).first_error_line = line ∧
      (save_error_info s func line now).first_error_ino = s.last_error_ino ∧
      (save_error_info s func line now).first_error_block =
        s.last_error_block) ∧
    ((save_error_info s func line now).error_count = s.error_count + 1) ∧
    (s.error_count = 0 →
      (save_error_info s func line now).err_report_timer_armed = true) ∧
    (s.error_count ≠ 0 →
      (save_error_info s func line now).err_report_timer_armed =
        s.err_report_timer_armed) ∧
    ((save_error_info s func line now).sync_commits = s.sync_commits + 1) := by
  by_cases hf : s.first_error_time = 0 <;>
    by_cases hc : s.error_count = 0 <;>
      simp [save_error_info, __save_error_info, hf, hc,
        Nat.mod_eq_of_lt hcount]
  all_goals omega

/-- Witness for C7 at a concrete all-zero diagnostic state. -/
theorem C7_error_reporting_witness :
    ((⟨1, 0, 0, 0, 0, false, false, false, 0, "", 0, 0, 0, 0, "", 0, 0, 0,
        0, false, 0⟩ : ErrState).error_count + 1 < 2 ^ 32) ∧
    ((save_error_info ⟨1, 0, 0, 0, 0, false, false, false, 0, "", 0, 0, 0,
        0, "", 0, 0, 0, 0, false, 0⟩ "ext4_lookup" 1437
        100).error_count =
      (⟨1, 0, 0, 0, 0, false, false, false, 0, "", 0, 0, 0, 0, "", 0, 0, 0,
        0, false, 0⟩ : ErrState).error_count + 1) ∧
    ((save_error_info ⟨1, 0, 0, 0, 0, false, false, false, 0, "", 0, 0, 0,
        0, "", 0, 0, 0, 0, false, 0⟩ "ext4_lookup" 1437
        100).sync_commits =
      (⟨1, 0, 0, 0, 0, false, false, false, 0, "", 0, 0, 0, 0, "", 0, 0, 0,
        0, false, 0⟩ : ErrState).sync_commits + 1) :=
  have h := C7_error_reporting
    ⟨1, 0, 0, 0, 0, false, false, false, 0, "", 0, 0, 0, 0, "", 0, 0, 0,
      0, false, 0⟩ "ext4_lookup" 1437 100 (by decide)
  ⟨by decide, h.2.2.2.1, h.2.2.2.2.2.2⟩

/-- C10: a fault handled on a volume already mounted read-only takes no
policy action under any configured error policy (including panic): the
policy step returns the state unchanged, aborts nothing, flips no flags
and does not panic, and the full error path performs exactly the
diagnostic recording done before the policy step. -/
theorem C10_rdonly_fault_no_action (s : ErrState) (func : String)
    (line now : Nat) (hro : s.s_flags &&& MS_RDONLY ≠ 0) :
    ext4_handle_error s = (s, false) ∧
    __ext4_error s func line now = (save_error_info s func line now, false) := by
  constructor
  · unfold ext4_handle_error
    rw [if_pos hro]
  · unfold __ext4_error ext4_handle_error
    rw [if_pos (by rw [save_error_info_s_flags]; exact hro)]

/-- Witness for C10 on a read-only volume configured with the panic
policy. -/
theorem C10_rdonly_fault_no_action_witness :
    ((⟨1, 0x40, 0, 0, 0, false, false, false, 0, "", 0, 0, 0, 0, "", 0, 0,
        0, 0, false, 0⟩ : ErrState).s_flags &&& MS_RDONLY ≠ 0) ∧
    (ext4_handle_error ⟨1, 0x40, 0, 0, 0, false, false, false, 0, "", 0, 0,
        0, 0, "", 0, 0, 0, 0, false, 0⟩ =
      (⟨1, 0x40, 0, 0, 0, false, false, false, 0, "", 0, 0, 0, 0, "", 0, 0,
        0, 0, false, 0⟩, false)) :=
  have h := C10_rdonly_fault_no_action
    ⟨1, 0x40, 0, 0, 0, false, false, false, 0, "", 0, 0, 0, 0, "", 0, 0, 0,
      0, false, 0⟩ "ext4_map_blocks" 560 7 (by decide)
  ⟨by decide, h.1⟩

/-- C8: for every persist call on a volume with its superblock buffer:
an ejected backing device makes the call a no-op (no state change, no
error); otherwise the last-write timestamp becomes the current time
exactly when the volume is not mounted read-only, and the free-block /
free-inode fields carried by the dirtied buffer are the ones recomputed
from the runtime counters (the buffer is marked dirty with those values
in place). -/
theorem C8_persist_guards (s : CommitState) (sync : Bool)
    (hsbh : s.sbh_present = true) :
    (block_device_ejected s = true → ext4_commit_super s sync = (s, 0)) ∧
    (block_device_ejected s = false →
      (s.rdonly = false → (ext4_commit_super s sync).1.es_wtime = s.now) ∧
      (s.rdonly = true → (ext4_commit_super s sync).1.es_wtime = s.es_wtime) ∧
      (ext4_commit_super s sync).1.es_free_blocks_count =
        s.freeclusters_sum * 2 ^ s.cluster_bits ∧
      (ext4_commit_super s sync).1.es_free_inodes_count = s.freeinodes_sum ∧
      (ext4_commit_super s sync).1.buffer_dirty = true) := by
  constructor
  · intro hej
    unfold ext4_commit_super
    rw [if_pos (Or.inr hej)]
  · intro hej
    unfold ext4_commit_super
    rw [if_neg (by simp [hsbh, hej])]
    by_cases hio : s.buffer_write_io_error = true <;>
      by_cases hro : s.rdonly = false <;>
        cases sync <;>
          simp [hio, hro] <;>
            split_ifs <;> simp_all

/-- Witness for C8 on a concrete writable, present device. -/
theorem C8_persist_guards_witness :
    ((⟨true, true, false, false, false, true, false, 1, 0, 0, 0, 0, 0, 0,
        0, 3, 4, 1, 42, 0, false⟩ : CommitState).sbh_present = true) ∧
    (block_device_ejected ⟨true, true, false, false, false, true, false, 1,
        0, 0, 0, 0, 0, 0, 0, 3, 4, 1, 42, 0, false⟩ = false) ∧
    ((ext4_commit_super ⟨true, true, false, false, false, true, false, 1,
        0, 0, 0, 0, 0, 0, 0, 3, 4, 1, 42, 0, false⟩ true).1.es_wtime = 42 ∧
      (ext4_commit_super ⟨true, true, false, false, false, true, false, 1,
        0, 0, 0, 0, 0, 0, 0, 3, 4, 1, 42, 0, false⟩
          true).1.es_free_blocks_count = 3 * 2 ^ 1 ∧
      (ext4_commit_super ⟨true, true, false, false, false, true, false, 1,
        0, 0, 0, 0, 0, 0, 0, 3, 4, 1, 42, 0, false⟩
          true).1.es_free_inodes_count = 4 ∧
      (ext4_commit_super ⟨true, true, false, false, false, true, false, 1,
        0, 0, 0, 0, 0, 0, 0, 3, 4, 1, 42, 0, false⟩
          true).1.buffer_dirty = true) :=
  have h := (C8_persist_guards ⟨true, true, false, false, false, true,
    false, 1, 0, 0, 0, 0, 0, 0, 0, 3, 4, 1, 42, 0, false⟩ true rfl).2
    (by decide)
  ⟨rfl, by decide, h.1 rfl, h.2.2.1, h.2.2.2.1, h.2.2.2.2⟩

/-- Counterexample to C5 as stated: at revision level 2 (above the
maximum supported, 1) `ext4_setup_super` returns `MS_RDONLY` rather than
an error, and the mount-time caller merely forces the read-only flag and
proceeds — the volume is mounted, not rejected. -/
theorem C5_revision_counterexample :
    EXT4_MAX_SUPP_REV <
      (⟨2, 1, 1, 1, 0, 0, 11, 128, ⟨0, 0, 0⟩, false, 0⟩ : SetupSb).rev_level ∧
    (ext4_setup_super ⟨2, 1, 1, 1, 0, 0, 11, 128, ⟨0, 0, 0⟩, false, 0⟩
        false 5).2 = MS_RDONLY ∧
    mount_apply_setup_super 0
      (ext4_setup_super ⟨2, 1, 1, 1, 0, 0, 11, 128, ⟨0, 0, 0⟩, false, 0⟩
        false 5).2 = MS_RDONLY := by
  decide

/-- C5 (amended): a superblock revision level above the maximum supported
does not reject the mount; `ext4_setup_super` reports `MS_RDONLY` and the
caller forces the volume read-only, the mount proceeding. -/
theorem C5_revision_forces_rdonly (s : SetupSb) (ro : Bool)
    (now s_flags : Nat) (hrev : EXT4_MAX_SUPP_REV < s.rev_level) :
    (ext4_setup_super s ro now).2 = MS_RDONLY ∧
    mount_apply_setup_super s_flags (ext4_setup_super s ro now).2 =
      s_flags ||| MS_RDONLY := by
  have hres : (ext4_setup_super s ro now).2 = MS_RDONLY := by
    unfold ext4_setup_super
    cases ro <;> simp [hrev]
  refine ⟨hres, ?_⟩
  rw [hres]
  unfold mount_apply_setup_super MS_RDONLY
  rw [if_pos (by omega)]

/-- Witness for the amended C5 at revision level 3. -/
theorem C5_revision_forces_rdonly_witness :
    (EXT4_MAX_SUPP_REV <
      (⟨3, 1, 1, 1, 0, 0, 11, 128, ⟨0, 0, 0⟩, true, 0⟩ : SetupSb).rev_level) ∧
    ((ext4_setup_super ⟨3, 1, 1, 1, 0, 0, 11, 128, ⟨0, 0, 0⟩, true, 0⟩
        true 9).2 = MS_RDONLY ∧
      mount_apply_setup_super 0
        (ext4_setup_super ⟨3, 1, 1, 1, 0, 0, 11, 128, ⟨0, 0, 0⟩, true, 0⟩
          true 9).2 = 0 ||| MS_RDONLY) :=
  ⟨by decide,
    C5_revision_forces_rdonly ⟨3, 1, 1, 1, 0, 0, 11, 128, ⟨0, 0, 0⟩, true, 0⟩
      true 9 0 (by decide)⟩

/-- C4 (amended): a remount to read-write of a volume mounted read-only
whose superblock still records a nonzero orphan head pointer returns a
defined (nonzero) error, with the in-memory mount options, VFS flags,
mount flags, mount state and orphan pointer exactly as before — provided
the request does not instead hit the panic policy through a previously
recorded abort (abort flag set, panic policy in the newly parsed options,
and no journal or a recorded journal error), in which case the kernel
panics rather than returning. -/
theorem C4_remount_orphan_atomicity (incompat_supp ro_supp : Nat)
    (blkcnt64 : Bool) (v0 : RemountVol) (parsed : Option MountOptions)
    (dquot_err : Nat) (mmp_fail : Bool)
    (hro : v0.s_flags &&& MS_RDONLY ≠ 0)
    (horph : v0.es_last_orphan ≠ 0)
    (hnopanic : ∀ nopts, parsed = some nopts →
      v0.mount_flags &&& EXT4_MF_FS_ABORTED ≠ 0 →
      nopts.s_mount_opt &&& EXT4_MOUNT_ERRORS_PANIC ≠ 0 →
      v0.journal_present = true ∧ v0.journal_rec_err = false) :
    ∃ c v2, ext4_remount incompat_supp ro_supp blkcnt64 v0 false parsed
        dquot_err mmp_fail = RemountResult.err c v2 ∧ c ≠ 0 ∧
      v2.s_flags = v0.s_flags ∧ v2.opts = v0.opts ∧
      v2.mount_flags = v0.mount_flags ∧ v2.mount_state = v0.mount_state ∧
      v2.es_last_orphan = v0.es_last_orphan := by
  unfold ext4_remount
  cases parsed with
  | none => exact ⟨EINVAL, _, rfl, by decide, rfl, rfl, rfl, rfl, rfl⟩
  | some nopts =>
      dsimp only
      by_cases hc1 : nopts.s_mount_opt &&& EXT4_MOUNT_DATA_FLAGS =
          EXT4_MOUNT_JOURNAL_DATA ∧
          nopts.s_mount_opt2 &&& EXT4_MOUNT2_EXPLICIT_DELALLOC ≠ 0
      · rw [if_pos hc1]
        exact ⟨EINVAL, _, rfl, by decide, rfl, rfl, rfl, rfl, rfl⟩
      · rw [if_neg hc1]
        by_cases hc2 : nopts.s_mount_opt &&& EXT4_MOUNT_DATA_FLAGS =
            EXT4_MOUNT_JOURNAL_DATA ∧
            nopts.s_mount_opt &&& EXT4_MOUNT_DIOREAD_NOLOCK ≠ 0
        · rw [if_pos hc2]
          exact ⟨EINVAL, _, rfl, by decide, rfl, rfl, rfl, rfl, rfl⟩
        · rw [if_neg hc2]
          by_cases hab : v0.mount_flags &&& EXT4_MF_FS_ABORTED ≠ 0
          · rw [if_pos hab]
            rw [ext4_abort_step_rdonly { v0 with opts := nopts } hro
              (fun hp => hnopanic nopts rfl hab hp)]
            rw [if_neg (by decide : ¬((false : Bool) = true))]
            obtain ⟨c, hc0, heq⟩ := remount_cont_orphan incompat_supp
              ro_supp blkcnt64 v0.s_flags v0.opts
              { { v0 with opts := nopts } with
                error_saves := v0.error_saves + 1 }
              dquot_err mmp_fail hro horph
            exact ⟨c, _, heq, hc0, rfl, rfl, rfl, rfl, rfl⟩
          · rw [if_neg hab]
            rw [if_neg (by decide : ¬((false : Bool) = true))]
            obtain ⟨c, hc0, heq⟩ := remount_cont_orphan incompat_supp
              ro_supp blkcnt64 v0.s_flags v0.opts { v0 with opts := nopts }
              dquot_err mmp_fail hro horph
            exact ⟨c, _, heq, hc0, rfl, rfl, rfl, rfl, rfl⟩

/-- Counterexample to C4 as stated: a read-only volume with orphan head 5
whose abort flag is already set, remounted read-write with `errors=panic`
in the new options and no journal, panics inside the abort check instead
of returning an error with the mount state restored. -/
theorem C4_remount_counterexample :
    ((⟨1, ⟨0, 0, 0, 0, 0, 0, 0⟩, 2, 0, 0, 5, 1, false, false, false, 0, 0,
        ⟨[], 32, ⟨0, 0, 0⟩, 0, 0, 0, 0, 0⟩, []⟩ : RemountVol).s_flags &&&
      MS_RDONLY ≠ 0) ∧
    ((⟨1, ⟨0, 0, 0, 0, 0, 0, 0⟩, 2, 0, 0, 5, 1, false, false, false, 0, 0,
        ⟨[], 32, ⟨0, 0, 0⟩, 0, 0, 0, 0, 0⟩, []⟩ : RemountVol).es_last_orphan
      ≠ 0) ∧
    ext4_remount 0 0 true
      ⟨1, ⟨0, 0, 0, 0, 0, 0, 0⟩, 2, 0, 0, 5, 1, false, false, false, 0, 0,
        ⟨[], 32, ⟨0, 0, 0⟩, 0, 0, 0, 0, 0⟩, []⟩
      false (some ⟨0x40, 0, 0, 0, 0, 0, 0⟩) 0 false =
      RemountResult.panicked := by
  decide

/-- Witness for the amended C4 on a concrete read-only volume with orphan
head 5 and no prior abort. -/
theorem C4_remount_orphan_atomicity_witness :
    ((⟨1, ⟨0, 0, 0, 0, 0, 0, 0⟩, 0, 0, 0, 5, 1, false, false, false, 0, 0,
        ⟨[], 32, ⟨0, 0, 0⟩, 0, 0, 0, 0, 0⟩, []⟩ : RemountVol).s_flags &&&
      MS_RDONLY ≠ 0) ∧
    ((⟨1, ⟨0, 0, 0, 0, 0, 0, 0⟩, 0, 0, 0, 5, 1, false, false, false, 0, 0,
        ⟨[], 32, ⟨0, 0, 0⟩, 0, 0, 0, 0, 0⟩, []⟩ : RemountVol).es_last_orphan
      ≠ 0) ∧
    (∃ c v2, ext4_remount 0 0 true
        ⟨1, ⟨0, 0, 0, 0, 0, 0, 0⟩, 0, 0, 0, 5, 1, false, false, false, 0, 0,
          ⟨[], 32, ⟨0, 0, 0⟩, 0, 0, 0, 0, 0⟩, []⟩
        false (some ⟨0, 0, 0, 0, 0, 0, 0⟩) 0 false =
        RemountResult.err c v2 ∧ c ≠ 0 ∧
      v2.s_flags = (⟨1, ⟨0, 0, 0, 0, 0, 0, 0⟩, 0, 0, 0, 5, 1, false, false,
        false, 0, 0, ⟨[], 32, ⟨0, 0, 0⟩, 0, 0, 0, 0, 0⟩, []⟩ :
          RemountVol).s_flags ∧
      v2.opts = (⟨1, ⟨0, 0, 0, 0, 0, 0, 0⟩, 0, 0, 0, 5, 1, false, false,
        false, 0, 0, ⟨[], 32, ⟨0, 0, 0⟩, 0, 0, 0, 0, 0⟩, []⟩ :
          RemountVol).opts ∧
      v2.mount_flags = (⟨1, ⟨0, 0, 0, 0, 0, 0, 0⟩, 0, 0, 0, 5, 1, false,
        false, false, 0, 0, ⟨[], 32, ⟨0, 0, 0⟩, 0, 0, 0, 0, 0⟩, []⟩ :
          RemountVol).mount_flags ∧
      v2.mount_state = (⟨1, ⟨0, 0, 0, 0, 0, 0, 0⟩, 0, 0, 0, 5, 1, false,
        false, false, 0, 0, ⟨[], 32, ⟨0, 0, 0⟩, 0, 0, 0, 0, 0⟩, []⟩ :
          RemountVol).mount_state ∧
      v2.es_last_orphan = (⟨1, ⟨0, 0, 0, 0, 0, 0, 0⟩, 0, 0, 0, 5, 1, false,
        false, false, 0, 0, ⟨[], 32, ⟨0, 0, 0⟩, 0, 0, 0, 0, 0⟩, []⟩ :
          RemountVol).es_last_orphan) :=
  ⟨by decide, by decide,
    C4_remount_orphan_atomicity 0 0 true
      ⟨1, ⟨0, 0, 0, 0, 0, 0, 0⟩, 0, 0, 0, 5, 1, false, false, false, 0, 0,
        ⟨[], 32, ⟨0, 0, 0⟩, 0, 0, 0, 0, 0⟩, []⟩
      (some ⟨0, 0, 0, 0, 0, 0, 0⟩) 0 false (by decide) (by decide)
      (fun _ _ habort _ => absurd habort (by decide))⟩
